import Mathlib

/-!
Verification of the ife-insurance-advisor frontend against its
natural-language specification.  The repository is a React/TypeScript
single-page application; every relevant handler is a pure state
transformation once the backend response is taken as an input, so the
embedding passes component state explicitly and models each axios call
by an `Except`-valued backend outcome together with a request count.
-/

namespace IFE

/-- A calendar date as the JavaScript `Date` accessors expose it:
`getFullYear`, `getMonth` (0-based) and `getDate` (1-based). -/
structure SimpleDate where
  year : Int
  month : Nat
  day : Nat
deriving DecidableEq, Repr

/-- Embedding of `calculateAge` (CustomerForm).  The `dob` input models the
date string of the form field: `none` is the empty string (the `!dob` guard),
`some` a parsed `YYYY-MM-DD` value.  The source computes the year difference,
decrements when the current month/day precede the birth month/day, and
returns `null` when the result is negative. -/
def calculateAge (dob : Option SimpleDate) (today : SimpleDate) : Option Int :=
  match dob with
  | none => none
  | some birthDate =>
    let age0 : Int := today.year - birthDate.year
    let m : Int := (today.month : Int) - (birthDate.month : Int)
    let age : Int :=
      if m < 0 ∨ (m = 0 ∧ today.day < birthDate.day) then age0 - 1 else age0
    if age ≥ 0 then some age else none

/-- Spec-side definition, from the spec's words: the difference of the
calendar years, decremented by one exactly when the current month/day falls
before the birth month/day (current date minus birth date floored to
completed years). -/
def flooredAgeSpec (birth today : SimpleDate) : Int :=
  (today.year - birth.year) -
    (if today.month < birth.month ∨ (today.month = birth.month ∧ today.day < birth.day)
     then 1 else 0)

/-- The age display under the date-of-birth field: `formData.age ?? '--'`. -/
def displayedAge (age : Option Int) : String :=
  match age with
  | some a => toString a
  | none => "--"

/-- The customer draft held by `CustomerForm` (`useState<Partial<Customer>>`).
`date_of_birth` models the date input's value (`none` = empty string), `age`
the optional derived age. -/
structure Draft where
  name : String
  email : String
  phone : String
  date_of_birth : Option SimpleDate
  age : Option Int
  gender : String
  occupation : String
  annual_income : Int
  family_size : Int
  dependents : Int
  risk_appetite : String
deriving Repr

/-- The `date_of_birth` branch of `handleInputChange`: store the new value and
the recomputed age (`age ?? undefined` is the identity on the option). -/
def handleDobChange (today : SimpleDate) (d : Draft) (value : Option SimpleDate) : Draft :=
  { d with date_of_birth := value, age := calculateAge value today }

/-- The shape held by the `any`-typed `existing_insurance` field; the code
only ever reads its optional `total` member. -/
structure ExistingInsurance where
  total : Option Int
deriving Repr

/-- The `Customer` interface of `services/api.ts`.  Optional fields are
options; `number` fields are integers (no arithmetic is performed on them
anywhere in the repository). -/
structure Customer where
  id : Option Nat
  name : String
  email : String
  phone : String
  date_of_birth : String
  age : Int
  gender : String
  occupation : String
  annual_income : Int
  family_size : Int
  dependents : Int
  existing_insurance : Option ExistingInsurance
  health_conditions : List String
  lifestyle_factors : List String
  risk_appetite : String
  investment_goals : List String
deriving Repr

/-- A failed axios request as the catch blocks see it: the only part any
handler reads is `err.response?.data?.detail`, an optional string. -/
structure BackendError where
  detail : Option String
deriving Repr

/-- The view enumeration of `App.tsx` (`ViewType`). -/
inductive ViewType where
  | customer
  | products
  | needsAnalysis
  | recommendations
  | productComparison
  | pdfReports
  | inflationCalculator
  | marketData
  | analyticsDashboard
deriving DecidableEq, Repr

/-- A success or error banner (`message` state of `App`). -/
inductive MsgType where
  | success
  | error
deriving DecidableEq, Repr

structure AppMessage where
  type : MsgType
  text : String
deriving Repr

/-- The root component's local state. -/
structure AppState where
  currentView : ViewType
  loading : Bool
  message : Option AppMessage
  currentCustomerId : Option Nat
deriving Repr

/-- Embedding of `handleCustomerSubmit` (App.tsx).  The backend outcome of
`apiService.createCustomer` is passed in; the result pairs the new state with
the number of creation requests issued (always one here).  On success the
saved customer's id is stored (`savedCustomer.id!` is a compile-time-only
assertion, so at runtime the stored value is exactly the returned id) and the
view switches to needs-analysis; the `finally` clause clears `loading`. -/
def handleCustomerSubmit (s : AppState) (backend : Except BackendError Customer) :
    AppState × Nat :=
  match backend with
  | .ok savedCustomer =>
      ({ s with loading := false,
                message := some ⟨.success,
                  "Customer saved successfully! Generating needs analysis..."⟩,
                currentCustomerId := savedCustomer.id,
                currentView := .needsAnalysis }, 1)
  | .error _ =>
      ({ s with loading := false,
                message := some ⟨.error, "Failed to save customer. Please try again."⟩ }, 1)

/-- The truthiness gate of `CustomerForm.handleSubmit`: name, email, phone
and date_of_birth truthy (nonempty / nonempty date value) and
`age !== undefined`. -/
def draftComplete (d : Draft) : Bool :=
  d.name ≠ "" && d.email ≠ "" && d.phone ≠ "" &&
    d.date_of_birth.isSome && d.age.isSome

/-- Embedding of `CustomerForm.handleSubmit`: when the draft passes the
truthiness gate, `onSubmit` (wired to `handleCustomerSubmit`) runs once;
otherwise nothing happens and no request is issued. -/
def handleSubmit (d : Draft) (s : AppState) (backend : Except BackendError Customer) :
    AppState × Nat :=
  if draftComplete d then handleCustomerSubmit s backend else (s, 0)

/-- Embedding of `handleProductSelection` (ProductComparison): remove the id
when present, append it otherwise. -/
def handleProductSelection (prev : List Nat) (productId : Nat) : List Nat :=
  if prev.contains productId then prev.filter (fun id => id ≠ productId)
  else prev ++ [productId]

/-- The selections reachable from the initial empty `selectedProducts` state
by repeated clicks. -/
inductive ReachableSelection : List Nat → Prop where
  | empty : ReachableSelection []
  | step (l : List Nat) (id : Nat) :
      ReachableSelection l → ReachableSelection (handleProductSelection l id)

/-- The `Insurer` interface of `services/api.ts`. -/
structure Insurer where
  id : Nat
  name : String
  logo_url : Option String
  website : Option String
  customer_care : Option String
  claim_settlement_ratio : Option Int
  solvency_ratio : Option Int
  irda_registration : Option String
  established_year : Option Int
  headquarters : Option String
  rating : Option String
  rating_agency : Option String
deriving Repr

/-- The `Product` interface of `services/api.ts`. -/
structure Product where
  id : Nat
  name : String
  insurer_id : Nat
  product_type : String
  description : String
  features : List String
  benefits : List String
  exclusions : List String
  min_age : Int
  max_age : Int
  min_sum_assured : Int
  max_sum_assured : Int
  min_premium : Int
  max_premium : Int
  premium_frequency : List String
  policy_term_options : List Int
  premium_paying_term_options : List Int
  is_active : Bool
  insurer : Option Insurer
deriving Repr

/-- Local state of `ProductsList`. -/
structure ProductsState where
  products : List Product
  loading : Bool
  error : Option String
deriving Repr

/-- Embedding of `ProductsList.fetchProducts`: set loading, fetch, store the
data on success or a fixed error string on failure, clear loading in the
`finally` clause. -/
def fetchProducts (s : ProductsState) (backend : Except BackendError (List Product)) :
    ProductsState :=
  match backend with
  | .ok data => { s with products := data, loading := false }
  | .error _ => { s with error := some "Failed to fetch products", loading := false }

/-- The nested insurer record of ProductComparison's local `Product`
interface. -/
structure ComparisonInsurerInfo where
  name : String
  rating : Int
  claim_settlement_ratio : Int
deriving Repr

/-- The local `Product` interface of `ProductComparison.tsx`. -/
structure ComparisonProduct where
  id : Nat
  name : String
  insurer : ComparisonInsurerInfo
  product_type : String
  features : List String
  benefits : List String
  exclusions : List String
deriving Repr

/-- One row of `comparison_data` in a `ProductComparisonResponse`. -/
structure ProductComparisonResult where
  product_id : Nat
  product_name : String
  insurer_name : String
  product_type : String
  premium_amount : Int
  premium_rate_per_1000 : Int
  features : List String
  benefits : List String
  exclusions : List String
  rating : Int
  claim_settlement_ratio : Int
  recommendation_score : Int
deriving Repr

/-- The `summary` record of a `ProductComparisonResponse`. -/
structure ComparisonSummary where
  total_products : Int
  total_premium : Int
  average_premium : Int
  min_premium : Int
  max_premium : Int
  premium_range : Int
  best_value_product : String
  lowest_premium_product : String
deriving Repr

/-- The `ProductComparisonResponse` interface of `ProductComparison.tsx`. -/
structure ProductComparisonResponse where
  comparison_data : List ProductComparisonResult
  summary : ComparisonSummary
  recommendations : List String
  generated_at : String
deriving Repr

/-- Local state of `ProductComparison` (the profile and parameter records
are plain pass-through request fields and are not read by any handler
logic, so they are kept abstract as their field lists). -/
structure CompareState where
  products : List ComparisonProduct
  selectedProducts : List Nat
  comparisonResult : Option ProductComparisonResponse
  loading : Bool
  error : Option String
deriving Repr

/-- Embedding of `handleCompare` (ProductComparison): with fewer than two
selected products it sets the error message and returns before any request;
otherwise it sets loading, clears the error, posts the comparison request
once, stores the response on success or a fixed error string on failure, and
clears loading in the `finally` clause.  The second component counts the
comparison requests issued. -/
def handleCompare (s : CompareState)
    (backend : Except BackendError ProductComparisonResponse) :
    CompareState × Nat :=
  if s.selectedProducts.length < 2 then
    ({ s with error := some "Please select at least 2 products to compare" }, 0)
  else
    match backend with
    | .ok response =>
        ({ s with loading := false, error := none,
                  comparisonResult := some response }, 1)
    | .error _ =>
        ({ s with loading := false,
                  error := some "Failed to compare products" }, 1)

/-- The `disabled` attribute of the compare button:
`loading || selectedProducts.length < 2`. -/
def compareButtonDisabled (s : CompareState) : Bool :=
  s.loading || s.selectedProducts.length < 2

/-- The `MarketDataItem` interface of `MarketData.tsx`. -/
structure MarketDataItem where
  id : Nat
  insurer_id : Option Nat
  date : String
  claim_settlement_ratio : Option Int
  rating : Option Int
  market_share : Option Int
  premium_growth : Option Int
  customer_satisfaction : Option Int
  inflation_rate : Int
  repo_rate : Int
  gdp_growth : Int
  market_cap : Int
  created_at : String
deriving DecidableEq, Repr

/-- The `MarketTrends` interface of `MarketData.tsx`. -/
structure MarketTrends where
  inflation_trend : Int
  repo_rate_trend : Int
  gdp_growth_trend : Int
  market_cap_trend : Int
  top_performers : List String
  market_insights : List String
deriving DecidableEq, Repr

/-- The `MarketInsights` interface of `MarketData.tsx`. -/
structure MarketInsights where
  key_insights : List String
  recommendations : List String
  risk_factors : List String
deriving DecidableEq, Repr

/-- The data/loading/error hooks of the `MarketData` component. -/
structure MarketState where
  marketData : List MarketDataItem
  trends : Option MarketTrends
  insights : Option MarketInsights
  loading : Bool
  error : Option String
deriving Repr

/-- How far the three sequential awaits of `fetchMarketData` get: the first
(`latest`), second (`trends`) or third (`insights`) request may throw, and
each constructor carries the responses already received before the throw. -/
inductive MarketFetchOutcome where
  | failLatest
  | failTrends (latest : List MarketDataItem)
  | failInsights (latest : List MarketDataItem) (trends : MarketTrends)
  | success (latest : List MarketDataItem) (trends : MarketTrends)
      (insights : MarketInsights)
deriving Repr

/-- Whether the outcome ends in the catch block. -/
def MarketFetchOutcome.isFailure : MarketFetchOutcome → Bool
  | .failLatest => true
  | .failTrends _ => true
  | .failInsights _ _ => true
  | .success _ _ _ => false

/-- Embedding of `fetchMarketData` (MarketData): sets loading and clears the
error, then awaits the three requests in order, committing each response with
its setter as it arrives; any throw jumps to the catch block, which stores a
fixed error message; the `finally` clause clears loading. -/
def fetchMarketData (s : MarketState) (o : MarketFetchOutcome) : MarketState :=
  match o with
  | .failLatest =>
      { s with error := some "Failed to fetch market data. Please try again later.",
               loading := false }
  | .failTrends latest =>
      { s with marketData := latest,
               error := some "Failed to fetch market data. Please try again later.",
               loading := false }
  | .failInsights latest trends =>
      { s with marketData := latest, trends := some trends,
               error := some "Failed to fetch market data. Please try again later.",
               loading := false }
  | .success latest trends insights =>
      { s with marketData := latest, trends := some trends,
               insights := some insights, error := none, loading := false }

/-- The whitespace class of the JavaScript regex `\s` on ASCII input. -/
def jsIsSpace (c : Char) : Bool :=
  c = ' ' || c = '\t' || c = '\n' || c = '\r' || c = '\x0b' || c = '\x0c'

/-- Embedding of `name.replace(/\s+/g, '_')` at the character-list level: the
global regex matches each maximal whitespace run and replaces it with a
single underscore, so on meeting a whitespace character one underscore is
emitted and the rest of the run is skipped. -/
def collapseWs : List Char → List Char
  | [] => []
  | c :: rest =>
    if jsIsSpace c then '_' :: collapseWs (rest.dropWhile (fun d => jsIsSpace d))
    else c :: collapseWs rest
termination_by l => l.length
decreasing_by
  all_goals simp_wf
  all_goals
    first
      | omega
      | · have h : (rest.dropWhile (fun d => jsIsSpace d)) <:+ rest :=
            List.dropWhile_suffix _
          have := h.sublist.length_le
          omega

/-- String-level wrapper for the whitespace-run replacement of the source. -/
def replaceWsRuns (s : String) : String := ⟨collapseWs s.data⟩

/-- The spec's words, as a one-pass state machine: every whitespace run is
replaced by a single underscore.  The flag records whether the previous
character belonged to a whitespace run whose underscore was already
emitted. -/
def specCollapseAux : List Char → Bool → List Char
  | [], _ => []
  | c :: rest, inRun =>
    if jsIsSpace c then
      if inRun then specCollapseAux rest true
      else '_' :: specCollapseAux rest true
    else c :: specCollapseAux rest false

/-- Spec-side whitespace-run replacement. -/
def specReplaceWsRuns (s : String) : String := ⟨specCollapseAux s.data false⟩

/-- Zero-padded two-digit field of an ISO date. -/
def pad2 (n : Nat) : String := if n < 10 then "0" ++ toString n else toString n

/-- Zero-padded four-digit year field of an ISO date. -/
def pad4 (n : Nat) : String :=
  if n < 10 then "000" ++ toString n
  else if n < 100 then "00" ++ toString n
  else if n < 1000 then "0" ++ toString n
  else toString n

/-- A calendar date as `toISOString` prints it (month and day 1-based). -/
structure IsoDate where
  year : Nat
  month : Nat
  day : Nat
deriving DecidableEq, Repr

/-- The date part of `new Date().toISOString()` — the `YYYY-MM-DD` prefix
kept by `.split('T')[0]`. -/
def isoDateString (d : IsoDate) : String :=
  pad4 d.year ++ "-" ++ pad2 d.month ++ "-" ++ pad2 d.day

/-- Embedding of JavaScript's `s.replace('-', ' ')` character-wise: a string
pattern replaces only the first occurrence. -/
def replaceFirstChar (target repl : Char) : List Char → List Char
  | [] => []
  | c :: rest =>
    if c = target then repl :: rest else c :: replaceFirstChar target repl rest

/-- String-level wrapper for replacing the first dash with a space. -/
def dashToSpaceOnce (s : String) : String := ⟨replaceFirstChar '-' ' ' s.data⟩

/-- The local `Customer` interface of `PDFReports.tsx`. -/
structure PDFCustomer where
  id : Nat
  name : String
  email : String
  age : Int
  annual_income : Int
  family_size : Int
deriving DecidableEq, Repr

/-- Local state of `PDFReports`. -/
structure PDFState where
  customers : List PDFCustomer
  selectedCustomer : Option Nat
  loading : Bool
  error : Option String
  success : Option String
deriving Repr

/-- Outcome of the blob request issued by `generatePDF`. -/
inductive PDFOutcome where
  | ok
  | httpError (err : BackendError)
deriving Repr

/-- Result of running `generatePDF`: the new component state, the filename of
the download link that was clicked (if any), and the number of backend
requests issued. -/
structure PDFEffect where
  state : PDFState
  download : Option String
  requests : Nat
deriving Repr

/-- JavaScript's `x || fallback` on an optional string: the fallback is taken
when `x` is absent or falsy — and the empty string is falsy. -/
def jsOrString (x : Option String) (fallback : String) : String :=
  match x with
  | some s => if s = "" then fallback else s
  | none => fallback

/-- Embedding of `generatePDF` (PDFReports).  With no selected customer it
returns immediately.  Otherwise it sets loading and clears error/success,
issues the blob request for a valid report type (an invalid type throws
before any request), and on success builds the download filename from the
selected customer's name (whitespace runs replaced by underscores, or the
literal `customer` when the id is not in the loaded list) and the ISO date
part of the current time, clicks the link, and stores a success message; the
catch block stores `err.response?.data?.detail || 'Failed to generate PDF'`,
so the fixed fallback is also used when the detail is the (falsy) empty
string; the `finally` clause clears loading. -/
def generatePDF (reportType : String) (today : IsoDate) (s : PDFState)
    (o : PDFOutcome) : PDFEffect :=
  match s.selectedCustomer with
  | none => ⟨s, none, 0⟩
  | some selected =>
    if reportType = "needs-analysis" ∨ reportType = "comprehensive" then
      match o with
      | .ok =>
        let customerName :=
          match s.customers.find? (fun c => c.id == selected) with
          | some c => replaceWsRuns c.name
          | none => "customer"
        let timestamp := isoDateString today
        let filename :=
          if reportType = "needs-analysis" then
            "needs_analysis_" ++ customerName ++ "_" ++ timestamp ++ ".pdf"
          else
            "comprehensive_report_" ++ customerName ++ "_" ++ timestamp ++ ".pdf"
        ⟨{ s with loading := false, error := none,
                  success := some (dashToSpaceOnce reportType ++
                    " PDF generated successfully!") },
         some filename, 1⟩
      | .httpError e =>
        ⟨{ s with loading := false,
                  error := some (jsOrString e.detail "Failed to generate PDF"),
                  success := none },
         none, 1⟩
    else
      ⟨{ s with loading := false, error := some "Failed to generate PDF",
                success := none },
       none, 0⟩

/-- The expected download filename, written from the claim's words with the
spec-side whitespace-run replacement. -/
def expectedPdfFilename (prefixPart : String) (customers : List PDFCustomer)
    (cid : Nat) (today : IsoDate) : String :=
  let name :=
    match customers.find? (fun c => c.id == cid) with
    | some c => specReplaceWsRuns c.name
    | none => "customer"
  prefixPart ++ name ++ "_" ++ isoDateString today ++ ".pdf"

/-- The `disabled` attribute of both generate buttons in `PDFReports`. -/
def pdfButtonDisabled (s : PDFState) : Bool := s.loading

/-- The scenario record shapes of `InflationCalculator`'s
`CalculationResult`. -/
structure FixedReturnsScenario where
  nominal_value : Int
  inflation_adjusted_value : Int
  real_return_rate : Int
  inflation_impact : Int
deriving Repr

structure SipScenario where
  total_investment : Int
  nominal_value : Int
  inflation_adjusted_value : Int
  real_return_rate : Int
  inflation_impact : Int
deriving Repr

structure CalcScenarios where
  fixed_returns : FixedReturnsScenario
  sip_returns : SipScenario
  step_up_sip : SipScenario
deriving Repr

structure YearlyBreakdownItem where
  year : Int
  investment : Int
  nominal_value : Int
  inflation_adjusted_value : Int
  real_growth : Int
deriving Repr

structure CalcParameters where
  initial_investment : Int
  monthly_contribution : Int
  investment_period_years : Int
  expected_return_rate : Int
  inflation_rate : Int
  investment_frequency : String
deriving Repr

structure CalcInsights where
  inflation_impact_message : String
  recommendation : String
  tax_implications : String
deriving Repr

/-- The `CalculationResult` interface of `InflationCalculator.tsx`. -/
structure CalculationResult where
  scenarios : CalcScenarios
  yearly_breakdown : List YearlyBreakdownItem
  parameters : CalcParameters
  insights : CalcInsights
deriving Repr

/-- The result/loading/error hooks of `InflationCalculator`. -/
structure InflationState where
  result : Option CalculationResult
  loading : Bool
  error : Option String
deriving Repr

/-- Embedding of `InflationCalculator.handleSubmit`: sets loading, clears the
error, posts the form, stores the response on success or a fixed message on
failure, and clears loading in the `finally` clause. -/
def inflationHandleSubmit (s : InflationState)
    (backend : Except BackendError CalculationResult) : InflationState :=
  match backend with
  | .ok r => { s with result := some r, error := none, loading := false }
  | .error _ =>
      { s with
          error :=
            some "Failed to calculate inflation-adjusted returns. Please try again."
          loading := false }

/-- The `disabled` attribute of the inflation calculator's submit button. -/
def inflationButtonDisabled (s : InflationState) : Bool := s.loading

/-- The `disabled` attribute of the customer form's save button
(`disabled={loading}`). -/
def customerSaveButtonDisabled (loading : Bool) : Bool := loading

/-- The `CalculatorInput` record built by `apiService.createNeedsAnalysis`.
The two rate fields hold the decimal literals 6.0 and 8.0, modelled as
rationals. -/
structure CalculatorInput where
  customer_id : Option Nat
  calculation_type : String
  age : Int
  gender : String
  annual_income : Int
  family_size : Int
  dependents : Int
  existing_coverage : Int
  debt_obligations : Int
  children_education_needs : Int
  retirement_needs : Int
  inflation_rate : ℚ
  return_rate : ℚ
deriving Repr

/-- One HTTP request issued by `createNeedsAnalysis`, in order. -/
inductive ApiRequest where
  | getCustomer (id : Nat)
  | postNeedsAnalysis (input : CalculatorInput)
deriving Repr

/-- Embedding of `apiService.createNeedsAnalysis`: first a GET for the
customer, then — when that resolves — a POST of the `CalculatorInput` built
from the fetched customer (`existing_coverage` is
`customer.existing_insurance?.total || 0`; `x || 0` returns `x` unless `x` is
absent or `0`, which coincides with `getD 0` on integers). -/
def createNeedsAnalysis (customerId : Nat)
    (backend : Except BackendError Customer) : List ApiRequest :=
  .getCustomer customerId ::
    match backend with
    | .ok customer =>
        [.postNeedsAnalysis
          { customer_id := customer.id
            calculation_type := "comprehensive"
            age := customer.age
            gender := customer.gender
            annual_income := customer.annual_income
            family_size := customer.family_size
            dependents := customer.dependents
            existing_coverage :=
              (customer.existing_insurance.bind ExistingInsurance.total).getD 0
            debt_obligations := 0
            children_education_needs := 0
            retirement_needs := 0
            inflation_rate := 6
            return_rate := 8 }]
    | .error _ => []

end IFE

namespace IFE

theorem calculateAge_eq (b t : SimpleDate) :
    calculateAge (some b) t =
      if 0 ≤ flooredAgeSpec b t then some (flooredAgeSpec b t) else none := by
  have hcond : ((t.month : Int) - (b.month : Int) < 0 ∨
        ((t.month : Int) - (b.month : Int) = 0 ∧ t.day < b.day)) ↔
      (t.month < b.month ∨ (t.month = b.month ∧ t.day < b.day)) := by
    constructor
    · rintro (h | ⟨h, h2⟩)
      · exact Or.inl (by omega)
      · exact Or.inr ⟨by omega, h2⟩
    · rintro (h | ⟨h, h2⟩)
      · exact Or.inl (by omega)
      · exact Or.inr ⟨by omega, h2⟩
  simp only [calculateAge, flooredAgeSpec, hcond]
  by_cases hc : t.month < b.month ∨ (t.month = b.month ∧ t.day < b.day) <;>
    simp [hc, ge_iff_le]

theorem calculateAge_eq_flooredAge_of_nonneg (b t : SimpleDate)
    (h : 0 ≤ flooredAgeSpec b t) :
    calculateAge (some b) t = some (flooredAgeSpec b t) := by
  rw [calculateAge_eq, if_pos h]

theorem calculateAge_eq_none_of_neg (b t : SimpleDate)
    (h : flooredAgeSpec b t < 0) :
    calculateAge (some b) t = none := by
  rw [calculateAge_eq, if_neg (by omega)]

theorem handleProductSelection_nodup {l : List Nat} (id : Nat) (h : l.Nodup) :
    (handleProductSelection l id).Nodup := by
  unfold handleProductSelection
  split
  · exact h.filter _
  · next hmem =>
    have hid : id ∉ l := by
      simpa using hmem
    simpa [List.nodup_append] using ⟨h, hid⟩

theorem reachableSelection_nodup {l : List Nat} (h : ReachableSelection l) :
    l.Nodup := by
  induction h with
  | empty => simp
  | step l' id' _ ih => exact handleProductSelection_nodup id' ih

theorem specCollapseAux_true_eq (l : List Char) :
    specCollapseAux l true =
      specCollapseAux (l.dropWhile (fun d => jsIsSpace d)) false := by
  induction l with
  | nil => rfl
  | cons c rest ih =>
    by_cases h : jsIsSpace c
    · simp [specCollapseAux, h, List.dropWhile_cons, ih]
    · simp [specCollapseAux, h, List.dropWhile_cons]

theorem collapseWs_eq_specCollapseAux (l : List Char) :
    collapseWs l = specCollapseAux l false := by
  induction l using collapseWs.induct with
  | case1 => simp [collapseWs, specCollapseAux]
  | case2 c rest h ih =>
    rw [collapseWs, if_pos h, specCollapseAux, if_pos h, ih,
      specCollapseAux_true_eq]
    simp
  | case3 c rest h ih =>
    rw [collapseWs, if_neg h, specCollapseAux, if_neg h, ih]

theorem replaceWsRuns_eq_spec (s : String) :
    replaceWsRuns s = specReplaceWsRuns s := by
  simp [replaceWsRuns, specReplaceWsRuns, collapseWs_eq_specCollapseAux]

end IFE

/-- C1 counterexample: with current date 2026-10-12 (month index 9) and a
date of birth in the future, 2027-01-01, the floored completed-years value is
-1, but `calculateAge` returns `null` (the form shows `--`), so the computed
age does not equal the floored calendar difference. -/
theorem C1_counterexample :
    IFE.calculateAge (some ⟨2027, 0, 1⟩) ⟨2026, 9, 12⟩ ≠
      some (IFE.flooredAgeSpec ⟨2027, 0, 1⟩ ⟨2026, 9, 12⟩) := by
  decide

/-- C1 (amended): for every birth date and current date, when the calendar
difference floored to completed years is nonnegative, `calculateAge` computes
exactly that value — the year difference decremented by one exactly when the
current month/day falls before the birth month/day — and the form displays
it; when the floored difference is negative (a future birth date),
`calculateAge` returns `null` and the form displays `--`. -/
theorem C1_calculateAge_floored_completed_years
    (b t : IFE.SimpleDate) (d : IFE.Draft) :
    (0 ≤ IFE.flooredAgeSpec b t →
      (IFE.handleDobChange t d (some b)).age = some (IFE.flooredAgeSpec b t) ∧
      IFE.displayedAge (IFE.handleDobChange t d (some b)).age =
        toString (IFE.flooredAgeSpec b t)) ∧
    (IFE.flooredAgeSpec b t < 0 →
      (IFE.handleDobChange t d (some b)).age = none ∧
      IFE.displayedAge (IFE.handleDobChange t d (some b)).age = "--") := by
  constructor
  · intro h
    have := IFE.calculateAge_eq_flooredAge_of_nonneg b t h
    simp [IFE.handleDobChange, this, IFE.displayedAge]
  · intro h
    have := IFE.calculateAge_eq_none_of_neg b t h
    simp [IFE.handleDobChange, this, IFE.displayedAge]

/-- Witness for C1: concrete evaluation at birth date 1990-03-15 (month index
2) and current date 2026-10-12 (month index 9): the completed age is 36. -/
theorem C1_witness :
    0 ≤ IFE.flooredAgeSpec ⟨1990, 2, 15⟩ ⟨2026, 9, 12⟩ ∧
    (IFE.handleDobChange ⟨2026, 9, 12⟩
        ⟨"", "", "", none, none, "male", "", 0, 1, 0, "low"⟩
        (some ⟨1990, 2, 15⟩)).age =
      some (IFE.flooredAgeSpec ⟨1990, 2, 15⟩ ⟨2026, 9, 12⟩) :=
  ⟨by decide,
   ((C1_calculateAge_floored_completed_years ⟨1990, 2, 15⟩ ⟨2026, 9, 12⟩
      ⟨"", "", "", none, none, "male", "", 0, 1, 0, "low"⟩).1 (by decide)).1⟩

/-- C2: for every customer draft whose name, email, phone, date of birth and
age are all present, submitting the form issues exactly one customer-creation
request, and when the backend call succeeds the application switches to the
needs-analysis view with `currentCustomerId` set to the id returned by the
backend (the `finally` clause also clears the loading flag). -/
theorem C2_submit_one_request_then_needs_analysis
    (d : IFE.Draft) (s : IFE.AppState)
    (b : Except IFE.BackendError IFE.Customer) (c : IFE.Customer)
    (hd : IFE.draftComplete d = true) :
    (IFE.handleSubmit d s b).2 = 1 ∧
    (b = .ok c →
      (IFE.handleSubmit d s b).1.currentView = .needsAnalysis ∧
      (IFE.handleSubmit d s b).1.currentCustomerId = c.id ∧
      (IFE.handleSubmit d s b).1.loading = false) := by
  cases b with
  | ok a =>
      refine ⟨by simp [IFE.handleSubmit, hd, IFE.handleCustomerSubmit], ?_⟩
      intro h
      obtain rfl : a = c := by injection h
      simp [IFE.handleSubmit, hd, IFE.handleCustomerSubmit]
  | error e =>
      refine ⟨by simp [IFE.handleSubmit, hd, IFE.handleCustomerSubmit], ?_⟩
      intro h
      simp at h

/-- Witness for C2: a concrete complete draft submitted against a backend
returning a customer with id 42 issues one request and lands on the
needs-analysis view with that id. -/
theorem C2_witness :
    IFE.draftComplete
      ⟨"Asha Rao", "asha@example.com", "9876543210", some ⟨1990, 2, 15⟩,
       some 36, "female", "engineer", 1200000, 3, 1, "medium"⟩ = true ∧
    (IFE.handleSubmit
      ⟨"Asha Rao", "asha@example.com", "9876543210", some ⟨1990, 2, 15⟩,
       some 36, "female", "engineer", 1200000, 3, 1, "medium"⟩
      ⟨.customer, false, none, none⟩
      (.ok ⟨some 42, "Asha Rao", "asha@example.com", "9876543210", "1990-03-15",
            36, "female", "engineer", 1200000, 3, 1, none, [], [], "medium", []⟩)).2 = 1 ∧
    (IFE.handleSubmit
      ⟨"Asha Rao", "asha@example.com", "9876543210", some ⟨1990, 2, 15⟩,
       some 36, "female", "engineer", 1200000, 3, 1, "medium"⟩
      ⟨.customer, false, none, none⟩
      (.ok ⟨some 42, "Asha Rao", "asha@example.com", "9876543210", "1990-03-15",
            36, "female", "engineer", 1200000, 3, 1, none, [], [], "medium", []⟩)).1.currentView
      = .needsAnalysis := by
  have h := C2_submit_one_request_then_needs_analysis
    ⟨"Asha Rao", "asha@example.com", "9876543210", some ⟨1990, 2, 15⟩,
     some 36, "female", "engineer", 1200000, 3, 1, "medium"⟩
    ⟨.customer, false, none, none⟩
    (.ok ⟨some 42, "Asha Rao", "asha@example.com", "9876543210", "1990-03-15",
          36, "female", "engineer", 1200000, 3, 1, none, [], [], "medium", []⟩)
    ⟨some 42, "Asha Rao", "asha@example.com", "9876543210", "1990-03-15",
     36, "female", "engineer", 1200000, 3, 1, none, [], [], "medium", []⟩
    (by decide)
  exact ⟨by decide, h.1, (h.2 rfl).1⟩

/-- C10 counterexample: toggling an already-selected id twice does not
restore the original selection as a list — starting from [1, 2], toggling 1
removes it and toggling again appends it at the end, yielding [2, 1]. -/
theorem C10_counterexample :
    IFE.handleProductSelection (IFE.handleProductSelection [1, 2] 1) 1 ≠ [1, 2] := by
  decide

/-- C10 (amended): `handleProductSelection` toggles membership (removing the
id when present, appending it otherwise).  Applying it twice with the same id
preserves the set of selected ids for every selection; when the id was not
selected, the original list is restored exactly (when it was selected, the
id moves to the end of the list); and every selection reachable from the
empty list contains no duplicate ids. -/
theorem C10_toggle_membership (l : List Nat) (id : Nat) :
    (∀ x, x ∈ IFE.handleProductSelection (IFE.handleProductSelection l id) id ↔ x ∈ l) ∧
    (id ∉ l → IFE.handleProductSelection (IFE.handleProductSelection l id) id = l) ∧
    (IFE.ReachableSelection l → l.Nodup) := by
  have habsent : id ∉ l → IFE.handleProductSelection (IFE.handleProductSelection l id) id = l := by
    intro h
    have h1 : IFE.handleProductSelection l id = l ++ [id] := by
      simp [IFE.handleProductSelection, List.contains, List.elem_eq_mem, h]
    rw [h1]
    have h2 : id ∈ l ++ [id] := by simp
    have h5 : IFE.handleProductSelection (l ++ [id]) id =
        (l ++ [id]).filter (fun i => i ≠ id) := by
      simp [IFE.handleProductSelection, List.contains, List.elem_eq_mem, h2]
    rw [h5]
    have h3 : l.filter (fun i => i ≠ id) = l :=
      List.filter_eq_self.mpr (fun a ha => by
        simp only [ne_eq, decide_eq_true_eq]
        exact fun hia => h (hia ▸ ha))
    have h4 : ([id].filter (fun i => i ≠ id)) = [] := by simp
    rw [List.filter_append, h3, h4, List.append_nil]
  refine ⟨?_, habsent, fun hr => IFE.reachableSelection_nodup hr⟩
  intro x
  by_cases h : id ∈ l
  · have h1 : IFE.handleProductSelection l id = l.filter (fun i => i ≠ id) := by
      simp [IFE.handleProductSelection, List.contains, List.elem_eq_mem, h]
    have h2 : id ∉ l.filter (fun i => i ≠ id) := by simp
    have h3 : IFE.handleProductSelection (l.filter (fun i => i ≠ id)) id =
        l.filter (fun i => i ≠ id) ++ [id] := by
      simp [IFE.handleProductSelection, List.contains, List.elem_eq_mem, h2]
    rw [h1, h3]
    simp only [List.mem_append, List.mem_filter, List.mem_singleton, ne_eq,
      decide_eq_true_eq]
    constructor
    · rintro (⟨hx, _⟩ | rfl)
      · exact hx
      · exact h
    · intro hx
      by_cases hxe : x = id
      · exact Or.inr hxe
      · exact Or.inl ⟨hx, hxe⟩
  · rw [habsent h]

/-- Witness for C10: toggling 9 twice on the reachable selection [5, 7]
restores it exactly, and that selection is duplicate-free. -/
theorem C10_witness :
    (9 ∉ ([5, 7] : List Nat)) ∧
    IFE.handleProductSelection (IFE.handleProductSelection [5, 7] 9) 9 = [5, 7] ∧
    IFE.ReachableSelection [5, 7] ∧ ([5, 7] : List Nat).Nodup := by
  have r0 : IFE.ReachableSelection [] := IFE.ReachableSelection.empty
  have e1 : IFE.handleProductSelection [] 5 = [5] := by decide
  have r1 : IFE.ReachableSelection [5] := e1 ▸ IFE.ReachableSelection.step [] 5 r0
  have e2 : IFE.handleProductSelection [5] 7 = [5, 7] := by decide
  have r2 : IFE.ReachableSelection [5, 7] := e2 ▸ IFE.ReachableSelection.step [5] 7 r1
  exact ⟨by decide, (C10_toggle_membership [5, 7] 9).2.1 (by decide), r2,
    (C10_toggle_membership [5, 7] 9).2.2 r2⟩

/-- C3: with fewer than two selected products the compare button is rendered
disabled and `handleCompare` sets the error message and returns without
issuing a request, leaving the existing comparison result (and every other
field except the error) unchanged; with two or more selected products the
comparison request is issued (exactly once). -/
theorem C3_compare_blocked_below_two
    (s : IFE.CompareState) (b : Except IFE.BackendError IFE.ProductComparisonResponse) :
    (s.selectedProducts.length < 2 →
      IFE.compareButtonDisabled s = true ∧
      (IFE.handleCompare s b).2 = 0 ∧
      (IFE.handleCompare s b).1.comparisonResult = s.comparisonResult ∧
      (IFE.handleCompare s b).1.error =
        some "Please select at least 2 products to compare" ∧
      (IFE.handleCompare s b).1.products = s.products ∧
      (IFE.handleCompare s b).1.selectedProducts = s.selectedProducts) ∧
    (2 ≤ s.selectedProducts.length → (IFE.handleCompare s b).2 = 1) := by
  constructor
  · intro h
    refine ⟨?_, ?_⟩
    · simp [IFE.compareButtonDisabled, h]
    · simp [IFE.handleCompare, h]
  · intro h
    have h2 : ¬ s.selectedProducts.length < 2 := by omega
    cases b <;> simp [IFE.handleCompare, h2]

/-- Witness for C3: a concrete state with one selected product blocks the
compare action, and with two selected products one request is issued. -/
theorem C3_witness :
    (([7] : List Nat).length < 2 ∧
      IFE.compareButtonDisabled ⟨[], [7], none, false, none⟩ = true ∧
      (IFE.handleCompare ⟨[], [7], none, false, none⟩ (.error ⟨none⟩)).2 = 0) ∧
    (2 ≤ ([7, 8] : List Nat).length ∧
      (IFE.handleCompare ⟨[], [7, 8], none, false, none⟩ (.error ⟨none⟩)).2 = 1) := by
  have h1 := (C3_compare_blocked_below_two ⟨[], [7], none, false, none⟩
    (.error ⟨none⟩)).1 (by decide)
  have h2 := (C3_compare_blocked_below_two ⟨[], [7, 8], none, false, none⟩
    (.error ⟨none⟩)).2 (by decide)
  exact ⟨⟨by decide, h1.1, h1.2.1⟩, ⟨by decide, h2⟩⟩

/-- C4 counterexample: starting from a MarketData state that already holds a
market-data list, a fetch in which the first request succeeds with fresh data
and the second (trends) request fails sets the error state (the error panel
renders) but has already replaced the previously held market data, so the
prior data state is not left unchanged by the failed operation. -/
theorem C4_counterexample :
    (IFE.fetchMarketData
        ⟨[⟨1, none, "2026-01-01", none, none, none, none, none, 6, 5, 7, 1000, "2026-01-01"⟩],
         none, none, false, none⟩
        (.failTrends
          [⟨2, none, "2026-10-01", none, none, none, none, none, 5, 6, 7, 2000, "2026-10-01"⟩])).error.isSome
      = true ∧
    (IFE.fetchMarketData
        ⟨[⟨1, none, "2026-01-01", none, none, none, none, none, 6, 5, 7, 1000, "2026-01-01"⟩],
         none, none, false, none⟩
        (.failTrends
          [⟨2, none, "2026-10-01", none, none, none, none, none, 5, 6, 7, 2000, "2026-10-01"⟩])).marketData
      ≠ [⟨1, none, "2026-01-01", none, none, none, none, none, 6, 5, 7, 1000, "2026-01-01"⟩] := by
  constructor
  · rfl
  · decide

/-- C4 (amended): when a backend fetch fails the component sets its error
state so the error panel is rendered; ProductsList's fetch and the compare
action leave their previously held data unchanged, and so does MarketData's
fetch when its first request fails; but MarketData's three sequential
requests (latest, trends, insights) sit in one try block that commits each
response as it arrives, so when a later request fails the earlier responses
have already replaced the prior data. -/
theorem C4_failed_fetch_renders_error_panel
    (ps : IFE.ProductsState) (pe : IFE.BackendError)
    (cs : IFE.CompareState) (ce : IFE.BackendError)
    (ms : IFE.MarketState) (o : IFE.MarketFetchOutcome)
    (latest : List IFE.MarketDataItem) :
    ((IFE.fetchProducts ps (.error pe)).error = some "Failed to fetch products" ∧
     (IFE.fetchProducts ps (.error pe)).products = ps.products) ∧
    (2 ≤ cs.selectedProducts.length →
      (IFE.handleCompare cs (.error ce)).1.error = some "Failed to compare products" ∧
      (IFE.handleCompare cs (.error ce)).1.comparisonResult = cs.comparisonResult) ∧
    (o.isFailure = true →
      (IFE.fetchMarketData ms o).error =
        some "Failed to fetch market data. Please try again later.") ∧
    ((IFE.fetchMarketData ms .failLatest).marketData = ms.marketData ∧
     (IFE.fetchMarketData ms .failLatest).trends = ms.trends ∧
     (IFE.fetchMarketData ms .failLatest).insights = ms.insights) ∧
    (IFE.fetchMarketData ms (.failTrends latest)).marketData = latest := by
  refine ⟨⟨rfl, rfl⟩, ?_, ?_, ⟨rfl, rfl, rfl⟩, rfl⟩
  · intro h
    have h2 : ¬ cs.selectedProducts.length < 2 := by omega
    simp [IFE.handleCompare, h2]
  · intro h
    cases o with
    | failLatest => rfl
    | failTrends latest => rfl
    | failInsights latest trends => rfl
    | success latest trends insights => simp [IFE.MarketFetchOutcome.isFailure] at h

/-- Witness for C4: concrete evaluation with two selected products and a
failing trends request. -/
theorem C4_witness :
    2 ≤ ([3, 4] : List Nat).length ∧
    (IFE.handleCompare ⟨[], [3, 4], none, false, none⟩ (.error ⟨none⟩)).1.error
      = some "Failed to compare products" ∧
    (IFE.MarketFetchOutcome.failTrends []).isFailure = true ∧
    (IFE.fetchMarketData ⟨[], none, none, true, none⟩ (.failTrends [])).error
      = some "Failed to fetch market data. Please try again later." := by
  have h := C4_failed_fetch_renders_error_panel
    ⟨[], true, none⟩ ⟨none⟩ ⟨[], [3, 4], none, false, none⟩ ⟨none⟩
    ⟨[], none, none, true, none⟩ (.failTrends []) []
  exact ⟨by decide, (h.2.1 (by decide)).1, by decide, h.2.2.1 (by decide)⟩

/-- C5: for every report type, current date, component state and request
outcome, `generatePDF` leaves the customers list and the selected customer id
unchanged (only the loading/error/success indicators change), and when a
customer is selected, the report type is valid and the request succeeds, a
file save is initiated (the download link receives a filename and is
clicked). -/
theorem C5_generatePDF_preserves_data
    (rt : String) (today : IFE.IsoDate) (s : IFE.PDFState) (o : IFE.PDFOutcome) :
    (IFE.generatePDF rt today s o).state.customers = s.customers ∧
    (IFE.generatePDF rt today s o).state.selectedCustomer = s.selectedCustomer ∧
    (s.selectedCustomer.isSome = true →
      (rt = "needs-analysis" ∨ rt = "comprehensive") → o = .ok →
      (IFE.generatePDF rt today s o).download.isSome = true) := by
  cases hsel : s.selectedCustomer with
  | none => refine ⟨?_, ?_, ?_⟩ <;> simp [IFE.generatePDF, hsel]
  | some selected =>
    by_cases hrt : rt = "needs-analysis" ∨ rt = "comprehensive"
    · cases o with
      | ok => refine ⟨?_, ?_, ?_⟩ <;> simp [IFE.generatePDF, hsel, hrt]
      | httpError e => refine ⟨?_, ?_, ?_⟩ <;> simp [IFE.generatePDF, hsel, hrt]
    · refine ⟨?_, ?_, ?_⟩ <;> simp [IFE.generatePDF, hsel, hrt]

/-- Witness for C5: a successful needs-analysis generation for the selected
customer 1 keeps the loaded customer list and selection and initiates a
save. -/
theorem C5_witness :
    ((⟨[⟨1, "John Doe", "john@example.com", 36, 1000000, 2⟩], some 1,
        false, none, none⟩ : IFE.PDFState).selectedCustomer).isSome = true ∧
    (IFE.generatePDF "needs-analysis" ⟨2026, 10, 12⟩
        ⟨[⟨1, "John Doe", "john@example.com", 36, 1000000, 2⟩], some 1,
         false, none, none⟩ .ok).state.customers =
      [⟨1, "John Doe", "john@example.com", 36, 1000000, 2⟩] ∧
    (IFE.generatePDF "needs-analysis" ⟨2026, 10, 12⟩
        ⟨[⟨1, "John Doe", "john@example.com", 36, 1000000, 2⟩], some 1,
         false, none, none⟩ .ok).download.isSome = true := by
  have h := C5_generatePDF_preserves_data "needs-analysis" ⟨2026, 10, 12⟩
    ⟨[⟨1, "John Doe", "john@example.com", 36, 1000000, 2⟩], some 1,
     false, none, none⟩ .ok
  exact ⟨rfl, h.1, h.2.2 rfl (Or.inl rfl) rfl⟩

/-- C6: on every successful generation the download filename is
`needs_analysis_<name>_<date>.pdf` for the needs-analysis kind and
`comprehensive_report_<name>_<date>.pdf` for the comprehensive kind, where
`<name>` is the selected customer's name with every whitespace run replaced
by a single underscore (or the literal `customer` when the selected id is not
in the loaded list) and `<date>` is the current date in ISO `YYYY-MM-DD`
form. -/
theorem C6_download_filename
    (rt : String) (today : IFE.IsoDate) (s : IFE.PDFState) (cid : Nat)
    (hsel : s.selectedCustomer = some cid) :
    (rt = "needs-analysis" →
      (IFE.generatePDF rt today s .ok).download =
        some (IFE.expectedPdfFilename "needs_analysis_" s.customers cid today)) ∧
    (rt = "comprehensive" →
      (IFE.generatePDF rt today s .ok).download =
        some (IFE.expectedPdfFilename "comprehensive_report_" s.customers cid today)) := by
  constructor
  · rintro rfl
    cases hfind : s.customers.find? (fun c => c.id == cid) with
    | none => simp [IFE.generatePDF, hsel, IFE.expectedPdfFilename, hfind]
    | some c =>
        simp [IFE.generatePDF, hsel, IFE.expectedPdfFilename, hfind,
          IFE.replaceWsRuns_eq_spec]
  · rintro rfl
    cases hfind : s.customers.find? (fun c => c.id == cid) with
    | none => simp [IFE.generatePDF, hsel, IFE.expectedPdfFilename, hfind]
    | some c =>
        simp [IFE.generatePDF, hsel, IFE.expectedPdfFilename, hfind,
          IFE.replaceWsRuns_eq_spec]

/-- Witness for C6: for the selected customer "John  Q Doe" (two spaces, one
space) on 2026-10-12, the needs-analysis filename is exactly
`needs_analysis_John_Q_Doe_2026-10-12.pdf`. -/
theorem C6_witness :
    ((⟨[⟨1, "John  Q Doe", "john@example.com", 36, 1000000, 2⟩], some 1,
        false, none, none⟩ : IFE.PDFState).selectedCustomer = some 1) ∧
    (IFE.generatePDF "needs-analysis" ⟨2026, 10, 12⟩
        ⟨[⟨1, "John  Q Doe", "john@example.com", 36, 1000000, 2⟩], some 1,
         false, none, none⟩ .ok).download =
      some "needs_analysis_John_Q_Doe_2026-10-12.pdf" := by
  have h := (C6_download_filename "needs-analysis" ⟨2026, 10, 12⟩
    ⟨[⟨1, "John  Q Doe", "john@example.com", 36, 1000000, 2⟩], some 1,
     false, none, none⟩ 1 rfl).1 rfl
  have h2 : IFE.expectedPdfFilename "needs_analysis_"
      [⟨1, "John  Q Doe", "john@example.com", 36, 1000000, 2⟩] 1 ⟨2026, 10, 12⟩ =
      "needs_analysis_John_Q_Doe_2026-10-12.pdf" := by decide
  exact ⟨rfl, h2 ▸ h⟩

/-- C7 counterexample: ProductsList's fetch failure handler shows its fixed
string even when the error response carries a server-provided detail
("Customer not found"), so the displayed message is not the detail string. -/
theorem C7_counterexample :
    (IFE.fetchProducts ⟨[], true, none⟩
        (.error ⟨some "Customer not found"⟩)).error =
      some "Failed to fetch products" ∧
    ("Failed to fetch products" : String) ≠ "Customer not found" := by
  exact ⟨rfl, by decide⟩

/-- C7 (amended): when a backend request fails, the PDF-generation action
shows the server-provided detail string when the error response contains a
nonempty one and a fixed fallback otherwise (an absent detail, and also an
empty-string detail, which JavaScript's `||` treats as falsy, both yield the
fallback), while every other view (products list, market data, product
comparison, inflation calculator, customer creation) shows its own fixed
message regardless of any server-provided detail; no further distinction
between failure kinds is made anywhere. -/
theorem C7_error_message_policy
    (rt : String) (today : IFE.IsoDate) (s : IFE.PDFState) (cid : Nat) (m : String)
    (ps : IFE.ProductsState) (cs : IFE.CompareState) (ms : IFE.MarketState)
    (o : IFE.MarketFetchOutcome) (infs : IFE.InflationState) (as : IFE.AppState)
    (e : IFE.BackendError)
    (hsel : s.selectedCustomer = some cid)
    (hrt : rt = "needs-analysis" ∨ rt = "comprehensive") :
    (m ≠ "" →
      (IFE.generatePDF rt today s (.httpError ⟨some m⟩)).state.error = some m) ∧
    (IFE.generatePDF rt today s (.httpError ⟨none⟩)).state.error =
      some "Failed to generate PDF" ∧
    (IFE.generatePDF rt today s (.httpError ⟨some ""⟩)).state.error =
      some "Failed to generate PDF" ∧
    (IFE.fetchProducts ps (.error e)).error = some "Failed to fetch products" ∧
    (o.isFailure = true →
      (IFE.fetchMarketData ms o).error =
        some "Failed to fetch market data. Please try again later.") ∧
    (2 ≤ cs.selectedProducts.length →
      (IFE.handleCompare cs (.error e)).1.error =
        some "Failed to compare products") ∧
    (IFE.inflationHandleSubmit infs (.error e)).error =
      some "Failed to calculate inflation-adjusted returns. Please try again." ∧
    (IFE.handleCustomerSubmit as (.error e)).1.message =
      some ⟨.error, "Failed to save customer. Please try again."⟩ := by
  refine ⟨?_, ?_, ?_, rfl, ?_, ?_, rfl, rfl⟩
  · intro hm
    rcases hrt with rfl | rfl <;> simp [IFE.generatePDF, hsel, IFE.jsOrString, hm]
  · rcases hrt with rfl | rfl <;> simp [IFE.generatePDF, hsel, IFE.jsOrString]
  · rcases hrt with rfl | rfl <;> simp [IFE.generatePDF, hsel, IFE.jsOrString]
  · intro h
    cases o with
    | failLatest => rfl
    | failTrends latest => rfl
    | failInsights latest trends => rfl
    | success latest trends insights =>
        simp [IFE.MarketFetchOutcome.isFailure] at h
  · intro h
    have h2 : ¬ cs.selectedProducts.length < 2 := by omega
    simp [IFE.handleCompare, h2]

/-- Witness for C7: a PDF failure with the nonempty detail "Customer not
found" surfaces that detail, a PDF failure with an empty-string detail falls
back to the fixed PDF message, and a products fetch failure carrying a
detail shows the fixed products message. -/
theorem C7_witness :
    ((⟨[], some 3, false, none, none⟩ : IFE.PDFState).selectedCustomer = some 3) ∧
    ("Customer not found" : String) ≠ "" ∧
    (IFE.generatePDF "needs-analysis" ⟨2026, 10, 12⟩ ⟨[], some 3, false, none, none⟩
        (.httpError ⟨some "Customer not found"⟩)).state.error =
      some "Customer not found" ∧
    (IFE.generatePDF "needs-analysis" ⟨2026, 10, 12⟩ ⟨[], some 3, false, none, none⟩
        (.httpError ⟨some ""⟩)).state.error =
      some "Failed to generate PDF" ∧
    (IFE.fetchProducts ⟨[], true, none⟩
        (.error ⟨some "Customer not found"⟩)).error =
      some "Failed to fetch products" := by
  have h := C7_error_message_policy "needs-analysis" ⟨2026, 10, 12⟩
    ⟨[], some 3, false, none, none⟩ 3 "Customer not found"
    ⟨[], true, none⟩ ⟨[], [], none, false, none⟩ ⟨[], none, none, true, none⟩
    .failLatest ⟨none, false, none⟩ ⟨.customer, false, none, none⟩
    ⟨some "Customer not found"⟩ rfl (Or.inl rfl)
  exact ⟨rfl, by decide, h.1 (by decide), h.2.2.1, h.2.2.2.1⟩

/-- C8: in every view driven by a user action (product comparison, inflation
calculator, PDF generation, customer form), the initiating control is
disabled whenever the loading flag is true, and the handler's `finally`
clause clears the loading flag when the in-flight request resolves, on
success and on failure alike. -/
theorem C8_loading_disables_and_is_cleared
    (cs : IFE.CompareState) (cb : Except IFE.BackendError IFE.ProductComparisonResponse)
    (infs : IFE.InflationState) (ib : Except IFE.BackendError IFE.CalculationResult)
    (pdfs : IFE.PDFState) (rt : String) (today : IFE.IsoDate) (po : IFE.PDFOutcome)
    (as : IFE.AppState) (ab : Except IFE.BackendError IFE.Customer) (l : Bool) :
    (cs.loading = true → IFE.compareButtonDisabled cs = true) ∧
    (infs.loading = true → IFE.inflationButtonDisabled infs = true) ∧
    (pdfs.loading = true → IFE.pdfButtonDisabled pdfs = true) ∧
    (l = true → IFE.customerSaveButtonDisabled l = true) ∧
    (2 ≤ cs.selectedProducts.length → (IFE.handleCompare cs cb).1.loading = false) ∧
    (IFE.inflationHandleSubmit infs ib).loading = false ∧
    (pdfs.selectedCustomer.isSome = true →
      (IFE.generatePDF rt today pdfs po).state.loading = false) ∧
    (IFE.handleCustomerSubmit as ab).1.loading = false := by
  refine ⟨?_, ?_, ?_, ?_, ?_, ?_, ?_, ?_⟩
  · intro h
    simp [IFE.compareButtonDisabled, h]
  · intro h
    simp [IFE.inflationButtonDisabled, h]
  · intro h
    simp [IFE.pdfButtonDisabled, h]
  · intro h
    simp [IFE.customerSaveButtonDisabled, h]
  · intro h
    have h2 : ¬ cs.selectedProducts.length < 2 := by omega
    cases cb <;> simp [IFE.handleCompare, h2]
  · cases ib <;> rfl
  · intro h
    cases hsel : pdfs.selectedCustomer with
    | none => rw [hsel] at h; simp at h
    | some selected =>
        by_cases hrt : rt = "needs-analysis" ∨ rt = "comprehensive"
        · cases po <;> simp [IFE.generatePDF, hsel, hrt]
        · simp [IFE.generatePDF, hsel, hrt]
  · cases ab <;> rfl

/-- Witness for C8: concrete busy states disable each control, and concrete
resolutions (both failures and a success) clear the loading flag. -/
theorem C8_witness :
    IFE.compareButtonDisabled ⟨[], [1, 2], none, true, none⟩ = true ∧
    IFE.inflationButtonDisabled ⟨none, true, none⟩ = true ∧
    IFE.pdfButtonDisabled ⟨[], some 1, true, none, none⟩ = true ∧
    IFE.customerSaveButtonDisabled true = true ∧
    (IFE.handleCompare ⟨[], [1, 2], none, true, none⟩ (.error ⟨none⟩)).1.loading = false ∧
    (IFE.inflationHandleSubmit ⟨none, true, none⟩ (.error ⟨none⟩)).loading = false ∧
    (IFE.generatePDF "comprehensive" ⟨2026, 10, 12⟩ ⟨[], some 1, true, none, none⟩
      .ok).state.loading = false ∧
    (IFE.handleCustomerSubmit ⟨.customer, true, none, none⟩
      (.error ⟨none⟩)).1.loading = false := by
  have h := C8_loading_disables_and_is_cleared
    ⟨[], [1, 2], none, true, none⟩ (.error ⟨none⟩)
    ⟨none, true, none⟩ (.error ⟨none⟩)
    ⟨[], some 1, true, none, none⟩ "comprehensive" ⟨2026, 10, 12⟩ .ok
    ⟨.customer, true, none, none⟩ (.error ⟨none⟩) true
  exact ⟨h.1 rfl, h.2.1 rfl, h.2.2.1 rfl, h.2.2.2.1 rfl,
    h.2.2.2.2.1 (by decide), h.2.2.2.2.2.1,
    h.2.2.2.2.2.2.1 rfl, h.2.2.2.2.2.2.2⟩

/-- C9: `createNeedsAnalysis` first issues the customer GET and then — only
when it resolves — posts a `CalculatorInput` whose age, gender,
annual_income, family_size and dependents equal the fetched customer's
fields, whose existing_coverage equals `existing_insurance.total` when that
field is present and 0 otherwise, and whose remaining fields are the
constants `comprehensive`, 0, 0, 0, 6.0 and 8.0. -/
theorem C9_createNeedsAnalysis_mapping
    (customerId : Nat) (c : IFE.Customer) (e : IFE.BackendError) :
    (∃ input,
      IFE.createNeedsAnalysis customerId (.ok c) =
        [.getCustomer customerId, .postNeedsAnalysis input] ∧
      input.customer_id = c.id ∧
      input.calculation_type = "comprehensive" ∧
      input.age = c.age ∧
      input.gender = c.gender ∧
      input.annual_income = c.annual_income ∧
      input.family_size = c.family_size ∧
      input.dependents = c.dependents ∧
      (∀ t, c.existing_insurance.bind IFE.ExistingInsurance.total = some t →
        input.existing_coverage = t) ∧
      (c.existing_insurance.bind IFE.ExistingInsurance.total = none →
        input.existing_coverage = 0) ∧
      input.debt_obligations = 0 ∧
      input.children_education_needs = 0 ∧
      input.retirement_needs = 0 ∧
      input.inflation_rate = 6 ∧
      input.return_rate = 8) ∧
    IFE.createNeedsAnalysis customerId (.error e) = [.getCustomer customerId] := by
  refine ⟨⟨_, rfl, rfl, rfl, rfl, rfl, rfl, rfl, rfl, ?_, ?_, rfl, rfl, rfl, rfl, rfl⟩, rfl⟩
  · intro t ht
    simp [ht]
  · intro ht
    simp [ht]

/-- Witness for C9: a concrete customer with `existing_insurance.total` of
500000 yields a GET followed by a POST whose coverage is 500000. -/
theorem C9_witness :
    ∃ input,
      IFE.createNeedsAnalysis 7
        (.ok ⟨some 7, "Asha Rao", "asha@example.com", "9876543210", "1990-03-15",
              36, "female", "engineer", 1200000, 3, 1, some ⟨some 500000⟩,
              [], [], "medium", []⟩) =
        [.getCustomer 7, .postNeedsAnalysis input] ∧
      input.existing_coverage = 500000 ∧
      input.age = 36 ∧ input.inflation_rate = 6 := by
  obtain ⟨input, heq, _, _, hage, _, _, _, _, hcov, _, _, _, _, hinf, _⟩ :=
    (C9_createNeedsAnalysis_mapping 7
      ⟨some 7, "Asha Rao", "asha@example.com", "9876543210", "1990-03-15",
       36, "female", "engineer", 1200000, 3, 1, some ⟨some 500000⟩,
       [], [], "medium", []⟩ ⟨none⟩).1
  exact ⟨input, heq, hcov 500000 rfl, hage, hinf⟩
